import Mathlib

/-!
# Verification of the GraphingLib shape, fit and gallery components

Shallow embedding of `src/graphinglib/shapes.py`, the degree-1 polynomial
fit exercised by `src/unit_testing/fits_test.py`, and the documentation
gallery generator `src/docs/sphinxext/gallery_generator.py`.

Python floats are modelled as exact rationals (`ℚ`); computations that
genuinely involve `sqrt` or `pi` land in `ℝ`.  Functions that can raise
`ValueError` are modelled as `Except String _`, the error payload being a
fixed message (the Python messages interpolate the offending values; the
interpolated text plays no role in any property).
-/

namespace GraphingLib

/-- A style parameter of a shape dataclass: either the sentinel string
`"default"` (left to the figure style) or an explicit value.  Mirrors the
Python fields declared as `float | Literal["default"] = "default"` etc. -/
inductive StyleParam (α : Type) where
  | default : StyleParam α
  | val : α → StyleParam α
deriving DecidableEq, Repr

/-- Python truthiness of a `fill` field: the sentinel is the non-empty
string `"default"`, hence truthy; an explicit `bool` is itself. -/
def StyleParam.truthy : StyleParam Bool → Bool
  | .default => true
  | .val b => b

/-- The `Point` value object from `graphinglib.graph_elements`, as used by
`shapes.py`: a pair of coordinates accessed as `.x` and `.y`. -/
structure Point where
  x : ℚ
  y : ℚ
deriving DecidableEq, Repr

/-- The `Circle` dataclass: geometric fields plus style fields. -/
structure Circle where
  x_center : ℚ
  y_center : ℚ
  radius : ℚ
  fill : StyleParam Bool
  color : StyleParam String
  line_width : StyleParam ℚ
  line_style : StyleParam String
  fill_alpha : StyleParam ℚ
deriving DecidableEq, Repr

/-- `Circle(...)` construction including the `__post_init__` validation:
raises `ValueError` when `radius <= 0`. -/
def Circle.make (x_center y_center radius : ℚ) (fill : StyleParam Bool)
    (color : StyleParam String) (line_width : StyleParam ℚ)
    (line_style : StyleParam String) (fill_alpha : StyleParam ℚ) :
    Except String Circle :=
  if radius ≤ 0 then .error "The radius must be positive"
  else .ok ⟨x_center, y_center, radius, fill, color, line_width, line_style, fill_alpha⟩

/-- `Circle.__contains__`: `(px - xc)**2 + (py - yc)**2 <= r**2`. -/
def Circle.contains (c : Circle) (p : Point) : Bool :=
  decide ((p.x - c.x_center) ^ 2 + (p.y - c.y_center) ^ 2 ≤ c.radius ^ 2)

/-- `Circle.get_center_coordinates`. -/
def Circle.get_center_coordinates (c : Circle) : ℚ × ℚ :=
  (c.x_center, c.y_center)

/-- `Circle.create_center_point`. -/
def Circle.create_center_point (c : Circle) : Point :=
  ⟨c.x_center, c.y_center⟩

/-- The `Rectangle` dataclass: bottom-left corner, width, height, plus
style fields. -/
structure Rectangle where
  x_bottom_left : ℚ
  y_bottom_left : ℚ
  width : ℚ
  height : ℚ
  fill : StyleParam Bool
  color : StyleParam String
  line_width : StyleParam ℚ
  line_style : StyleParam String
  fill_alpha : StyleParam ℚ
deriving DecidableEq, Repr

/-- `Rectangle(...)` construction including the `__post_init__` validation:
raises `ValueError` when `width <= 0`, then when `height <= 0`. -/
def Rectangle.make (x_bottom_left y_bottom_left width height : ℚ)
    (fill : StyleParam Bool) (color : StyleParam String) (line_width : StyleParam ℚ)
    (line_style : StyleParam String) (fill_alpha : StyleParam ℚ) :
    Except String Rectangle :=
  if width ≤ 0 then .error "The width must be positive"
  else if height ≤ 0 then .error "The height must be positive"
  else .ok ⟨x_bottom_left, y_bottom_left, width, height, fill, color, line_width,
    line_style, fill_alpha⟩

/-- `Rectangle.from_center`: builds the rectangle whose bottom-left corner
is `(x - width/2, y - height/2)`. -/
def Rectangle.from_center (x y width height : ℚ) (fill : StyleParam Bool)
    (color : StyleParam String) (line_width : StyleParam ℚ)
    (line_style : StyleParam String) (fill_alpha : StyleParam ℚ) :
    Except String Rectangle :=
  Rectangle.make (x - width / 2) (y - height / 2) width height fill color
    line_width line_style fill_alpha

/-- `Rectangle.from_points`: raises `ValueError` when the two corners share
an x or a y coordinate, otherwise builds the rectangle with bottom-left
corner `(min x, min y)` and dimensions `|Δx|, |Δy|` (revalidated by the
dataclass constructor). -/
def Rectangle.from_points (point1 point2 : Point) (fill : StyleParam Bool)
    (color : StyleParam String) (line_width : StyleParam ℚ)
    (line_style : StyleParam String) (fill_alpha : StyleParam ℚ) :
    Except String Rectangle :=
  if point1.x = point2.x ∨ point1.y = point2.y then
    .error "The points must not be on the same line"
  else
    Rectangle.make (min point1.x point2.x) (min point1.y point2.y)
      |point1.x - point2.x| |point1.y - point2.y| fill color line_width
      line_style fill_alpha

/-- `Rectangle.__contains__`: the Python chained comparisons
`x_bottom_left <= point.x <= x_bottom_left + width` and
`y_bottom_left <= point.y <= y_bottom_left + height`. -/
def Rectangle.contains (r : Rectangle) (p : Point) : Bool :=
  (decide (r.x_bottom_left ≤ p.x) && decide (p.x ≤ r.x_bottom_left + r.width)) &&
    (decide (r.y_bottom_left ≤ p.y) && decide (p.y ≤ r.y_bottom_left + r.height))

/-- `Rectangle.get_area`. -/
def Rectangle.get_area (r : Rectangle) : ℚ :=
  r.width * r.height

/-- `Rectangle.get_perimeter`. -/
def Rectangle.get_perimeter (r : Rectangle) : ℚ :=
  2 * (r.width + r.height)

/-- `Rectangle.get_center_coordinates`. -/
def Rectangle.get_center_coordinates (r : Rectangle) : ℚ × ℚ :=
  (r.x_bottom_left + r.width / 2, r.y_bottom_left + r.height / 2)

/-- `Rectangle.create_center_point`. -/
def Rectangle.create_center_point (r : Rectangle) : Point :=
  ⟨r.x_bottom_left + r.width / 2, r.y_bottom_left + r.height / 2⟩

/-- `Rectangle.get_coordinates_at_x`: raises `ValueError` when
`x <= x_bottom_left or x >= x_bottom_left + width`, otherwise returns the
two boundary points at that abscissa. -/
def Rectangle.get_coordinates_at_x (r : Rectangle) (x : ℚ) :
    Except String (List (ℚ × ℚ)) :=
  if x ≤ r.x_bottom_left ∨ x ≥ r.x_bottom_left + r.width then
    .error "x must be between x_bottom_left and x_bottom_left + width"
  else
    .ok [(x, r.y_bottom_left), (x, r.y_bottom_left + r.height)]

/-- `Rectangle.get_coordinates_at_y`: raises `ValueError` when
`y <= y_bottom_left or y >= y_bottom_left + height`. -/
def Rectangle.get_coordinates_at_y (r : Rectangle) (y : ℚ) :
    Except String (List (ℚ × ℚ)) :=
  if y ≤ r.y_bottom_left ∨ y ≥ r.y_bottom_left + r.height then
    .error "y must be between y_bottom_left and y_bottom_left + height"
  else
    .ok [(r.x_bottom_left, y), (r.x_bottom_left + r.width, y)]

/-- `Circle.get_area`: `np.pi * self.radius**2`. -/
noncomputable def Circle.get_area (c : Circle) : ℝ :=
  Real.pi * (c.radius : ℝ) ^ 2

/-- `Circle.get_circumference`: `2 * np.pi * self.radius`. -/
noncomputable def Circle.get_circumference (c : Circle) : ℝ :=
  2 * Real.pi * (c.radius : ℝ)

open scoped Classical in
/-- `Circle.get_coordinates_at_x`: raises `ValueError` when
`x < x_center - radius or x > x_center + radius`; otherwise computes
`y = sqrt(radius**2 - (x - x_center)**2)` and returns `[(x, y)]` when
`y == 0`, else `[(x, y), (x, -y)]`.  Note the code returns `y` and `-y`
as they come out of the square root, with no `y_center` offset. -/
noncomputable def Circle.get_coordinates_at_x (c : Circle) (x : ℚ) :
    Except String (List (ℝ × ℝ)) :=
  if x < c.x_center - c.radius ∨ x > c.x_center + c.radius then
    .error "x must be between x_center - radius and x_center + radius"
  else if Real.sqrt ((c.radius : ℝ) ^ 2 - ((x : ℝ) - (c.x_center : ℝ)) ^ 2) = 0 then
    .ok [((x : ℝ), Real.sqrt ((c.radius : ℝ) ^ 2 - ((x : ℝ) - (c.x_center : ℝ)) ^ 2))]
  else
    .ok [((x : ℝ), Real.sqrt ((c.radius : ℝ) ^ 2 - ((x : ℝ) - (c.x_center : ℝ)) ^ 2)),
      ((x : ℝ), -Real.sqrt ((c.radius : ℝ) ^ 2 - ((x : ℝ) - (c.x_center : ℝ)) ^ 2))]

open scoped Classical in
/-- `Circle.get_coordinates_at_y`: raises `ValueError` when
`y < y_center - radius or y > y_center + radius`; otherwise computes
`x = sqrt(radius**2 - (y - y_center)**2)` and returns `[(x, y)]` when
`x == 0`, else `[(x, y), (-x, y)]`, again with no `x_center` offset. -/
noncomputable def Circle.get_coordinates_at_y (c : Circle) (y : ℚ) :
    Except String (List (ℝ × ℝ)) :=
  if y < c.y_center - c.radius ∨ y > c.y_center + c.radius then
    .error "y must be between y_center - radius and y_center + radius"
  else if Real.sqrt ((c.radius : ℝ) ^ 2 - ((y : ℝ) - (c.y_center : ℝ)) ^ 2) = 0 then
    .ok [(Real.sqrt ((c.radius : ℝ) ^ 2 - ((y : ℝ) - (c.y_center : ℝ)) ^ 2), (y : ℝ))]
  else
    .ok [(Real.sqrt ((c.radius : ℝ) ^ 2 - ((y : ℝ) - (c.y_center : ℝ)) ^ 2), (y : ℝ)),
      (-Real.sqrt ((c.radius : ℝ) ^ 2 - ((y : ℝ) - (c.y_center : ℝ)) ^ 2), (y : ℝ))]

/-! ## Rendering model

`_plot_element` methods draw on a matplotlib `Axes`.  The axes are
modelled as a trace of drawing commands; each `_plot_element` is a
function from the entity and the current trace to the (possibly updated)
entity and the extended trace.  Command payloads record the geometric
arguments passed to the backend; style keyword dictionaries are not
tracked (no claim depends on them). -/

/-- A drawing command issued to the matplotlib axes. -/
inductive PlotCmd where
  /-- `axes.plot(x, y, zorder=z_order, **params)` -/
  | axPlot (xs ys : List ℝ) (zorder : ℤ)
  /-- `axes.fill_between(x, y, base, zorder=z_order, **params)` -/
  | axFillBetween (xs ys : List ℝ) (base : ℝ) (zorder : ℤ)
  /-- `axes.annotate("", xy, xytext, zorder=z_order, arrowprops=...)`;
  only the base arrow style string of the props is recorded. -/
  | axAnnotate (xy xytext : ℚ × ℚ) (zorder : ℤ) (arrowstyle : String)
  /-- `axes.add_patch(MPLPolygon(vertices, **kwargs))` -/
  | axAddPatch (vertices : List (ℚ × ℚ))

/-- `np.linspace(a, b, n)`. -/
noncomputable def linspace (a b : ℝ) (n : ℕ) : List ℝ :=
  (List.range n).map (fun i => a + (b - a) * (i : ℝ) / ((n : ℝ) - 1))

/-- `Circle._plot_element`: samples 100 boundary points, plots them, and
fills below them down to `y_center` when `fill` is truthy.  No assignment
to `self` occurs, so the circle comes back unchanged. -/
noncomputable def Circle.plot_element (c : Circle) (axes : List PlotCmd)
    (z_order : ℤ) : Circle × List PlotCmd :=
  let phi := linspace 0 (2 * Real.pi) 100
  let xs := phi.map (fun t => (c.radius : ℝ) * Real.cos t + (c.x_center : ℝ))
  let ys := phi.map (fun t => (c.radius : ℝ) * Real.sin t + (c.y_center : ℝ))
  (c,
    (axes ++ [.axPlot xs ys z_order]) ++
      (if c.fill.truthy then [.axFillBetween xs ys (c.y_center : ℝ) z_order] else []))

/-- `Rectangle._plot_element`: plots the five-point closed outline and
fills it when `fill` is truthy.  No assignment to `self` occurs. -/
def Rectangle.plot_element (r : Rectangle) (axes : List PlotCmd)
    (z_order : ℤ) : Rectangle × List PlotCmd :=
  let xs : List ℚ := [r.x_bottom_left, r.x_bottom_left + r.width,
    r.x_bottom_left + r.width, r.x_bottom_left, r.x_bottom_left]
  let ys : List ℚ := [r.y_bottom_left, r.y_bottom_left,
    r.y_bottom_left + r.height, r.y_bottom_left + r.height, r.y_bottom_left]
  (r,
    (axes ++ [.axPlot (xs.map (fun q => (q : ℝ))) (ys.map (fun q => (q : ℝ))) z_order]) ++
      (if r.fill.truthy then
        [.axFillBetween (xs.map (fun q => (q : ℝ))) (ys.map (fun q => (q : ℝ))) 0 z_order]
      else []))

/-- The `Arrow` dataclass.  `style_attr` models the `_style` instance
attribute, which the dataclass constructor does not create (`none`) and
which `_plot_element` assigns. -/
structure Arrow where
  pointA : ℚ × ℚ
  pointB : ℚ × ℚ
  color : StyleParam String
  width : StyleParam ℚ
  head_size : StyleParam ℚ
  shrink : ℚ
  two_sided : Bool
  style_attr : Option String
deriving DecidableEq, Repr

/-- `Arrow(...)` construction: the `_style` attribute does not exist yet. -/
def Arrow.make (pointA pointB : ℚ × ℚ) (color : StyleParam String)
    (width head_size : StyleParam ℚ) (shrink : ℚ) (two_sided : Bool) : Arrow :=
  ⟨pointA, pointB, color, width, head_size, shrink, two_sided, none⟩

/-- `Arrow._shrink_points`. -/
def Arrow.shrink_points (a : Arrow) : (ℚ × ℚ) × (ℚ × ℚ) :=
  let x_length := a.pointA.1 - a.pointB.1
  let y_length := a.pointA.2 - a.pointB.2
  ((a.pointB.1 + (1 - a.shrink) * x_length, a.pointB.2 + (1 - a.shrink) * y_length),
    (a.pointA.1 - (1 - a.shrink) * x_length, a.pointA.2 - (1 - a.shrink) * y_length))

/-- `Arrow._plot_element`: assigns `self._style` (`"<|-|>"` when
double-sided, else `"-|>"`), then annotates from `pointA` to `pointB`
(through `_shrink_points` when `shrink != 0`).  The assignment to
`self._style` is the one persistent state change among the shape
classes. -/
def Arrow.plot_element (a : Arrow) (axes : List PlotCmd) (z_order : ℤ) :
    Arrow × List PlotCmd :=
  let style := if a.two_sided then "<|-|>" else "-|>"
  ({ a with style_attr := some style },
    if a.shrink ≠ 0 then
      axes ++ [.axAnnotate a.shrink_points.2 a.shrink_points.1 z_order style]
    else
      axes ++ [.axAnnotate a.pointB a.pointA z_order style])

/-- The `Line` dataclass. -/
structure Line where
  pointA : ℚ × ℚ
  pointB : ℚ × ℚ
  color : StyleParam String
  width : StyleParam ℚ
  capped_line : Bool
  cap_width : StyleParam ℚ
deriving DecidableEq, Repr

/-- `Line._plot_element`: a single annotate call; no assignment to
`self`. -/
def Line.plot_element (l : Line) (axes : List PlotCmd) (z_order : ℤ) :
    Line × List PlotCmd :=
  (l, axes ++ [.axAnnotate l.pointA l.pointB z_order
    (if l.capped_line then "|-|" else "-")])

/-- The `Polygon` class: style fields plus the held shapely polygon,
modelled by its defining vertex list. -/
structure Polygon where
  fill : StyleParam Bool
  edge_color : StyleParam String
  fill_color : StyleParam String
  line_width : StyleParam ℚ
  line_style : StyleParam String
  fill_alpha : StyleParam ℚ
  sh_polygon : List (ℚ × ℚ)
deriving DecidableEq, Repr

/-- `Polygon.vertices`: the exterior ring of the shapely polygon, which
closes the ring by repeating the first vertex. -/
def Polygon.vertices (p : Polygon) : List (ℚ × ℚ) :=
  p.sh_polygon ++ p.sh_polygon.take 1

/-- `Polygon._plot_element`: adds a fill patch when `fill` is truthy and
an edge patch (the `edge_color is not None` guard is vacuous for the
modelled field values); no assignment to `self`. -/
def Polygon.plot_element (p : Polygon) (axes : List PlotCmd) (_z_order : ℤ) :
    Polygon × List PlotCmd :=
  (p,
    (axes ++ (if p.fill.truthy then [.axAddPatch p.vertices] else [])) ++
      [.axAddPatch p.vertices])

/-! ## Curve fitting (degree-1 polynomial)

`graphinglib/fits.py` is not part of the provided sources; only its unit
tests are.  The fit is therefore modelled from the spec. -/

/-- The `Scatter` data object: paired x and y data arrays. -/
structure Scatter where
  x_data : List ℚ
  y_data : List ℚ
deriving DecidableEq, Repr

/-- Modelled from the spec: `graphinglib/fits.py` (absent from `src/`)
performs "a linear least-squares solve" for `FitFromPolynomial`.  For
degree 1 the least-squares line through `(x_i, y_i)` is given by the
normal equations: slope `c1 = (n·Σxy - Σx·Σy) / (n·Σx² - (Σx)²)` and
intercept `c0 = (Σy - c1·Σx) / n`, returned constant term first (the
tests in `fits_test.py` expect `coeffs == [2, 3]` for `y = 3x + 2`). -/
def polyfit1 (x y : List ℚ) : ℚ × ℚ :=
  let n : ℚ := (x.length : ℚ)
  let sx := x.sum
  let sy := y.sum
  let sxx := (x.map (fun t => t ^ 2)).sum
  let sxy := ((x.zip y).map (fun p => p.1 * p.2)).sum
  let c1 := (n * sxy - sx * sy) / (n * sxx - sx ^ 2)
  let c0 := (sy - c1 * sx) / n
  (c0, c1)

/-- Modelled from the spec: the fit-result object stores "fitted parameter
vector ... and a callable evaluation function". -/
structure FitFromPolynomial where
  coeffs : List ℚ
  function : ℚ → ℚ

/-- Modelled from the spec: `FitFromPolynomial(scatter, 1, ...)` fits a
first-degree polynomial to the scatter's data and stores the coefficient
list (constant first) and the polynomial evaluation closure. -/
def FitFromPolynomial.degree1 (data : Scatter) : FitFromPolynomial :=
  let p := polyfit1 data.x_data data.y_data
  { coeffs := [p.1, p.2], function := fun t => p.1 + p.2 * t }

/-! ## Documentation gallery generator

`docs/sphinxext/gallery_generator.py` is build tooling over the real file
system; it is modelled over an abstract file system: a list of
`(path, mtime)` pairs for the files existing before the build. -/

/-- Target path of the RST page generated for an example module
(`op.join(target_dir, self.rstfilename)`). -/
def rstPath (target_dir module_name : String) : String :=
  target_dir ++ "/" ++ module_name ++ ".rst"

/-- An example script found by `glob` in the examples source directory. -/
structure ExampleScript where
  module_name : String
  mtime : ℕ
deriving DecidableEq, Repr

/-- `ExampleGenerator.__init__`'s caching test: the script is run exactly
when the output RST file does not exist or was modified less recently
than the example (`not op.exists(outfilename) or
op.getmtime(outfilename) < file_mtime`). -/
def shouldRunExample (fs : List (String × ℕ)) (target_dir : String)
    (s : ExampleScript) : Bool :=
  match fs.lookup (rstPath target_dir s.module_name) with
  | none => true
  | some m => decide (m < s.mtime)

/-- An artifact emitted by the gallery build. -/
inductive Artifact where
  /-- the RST reference page `target_dir/module.rst` -/
  | rstPage (module_name : String)
  /-- the rendered image `target_dir/_images/module.png` -/
  | pngImage (module_name : String)
  /-- the thumbnail `example_thumbs/module_thumb.png` -/
  | thumbnail (module_name : String)
  /-- the copy of the script `target_dir/module.py` -/
  | scriptCopy (module_name : String)
  /-- the gallery index page `target_dir/index.rst` -/
  | indexPage
deriving DecidableEq, Repr

/-- One iteration of the loop in `main`: `ExampleGenerator(filename,
target_dir)` executes the script and saves the PNG and thumbnail only
when `shouldRunExample` holds; then `main` unconditionally copies the
script and writes the RST page. -/
def processExample (fs : List (String × ℕ)) (target_dir : String)
    (s : ExampleScript) : List Artifact :=
  (if shouldRunExample fs target_dir s then
    [.pngImage s.module_name, .thumbnail s.module_name]
  else []) ++ [.scriptCopy s.module_name, .rstPage s.module_name]

/-- `main(app)`: processes every `*.py` script of the examples source
directory in sorted order, then writes the index page. -/
def galleryMain (fs : List (String × ℕ)) (target_dir : String)
    (scripts : List ExampleScript) : List Artifact :=
  (scripts.map (processExample fs target_dir)).flatten ++ [.indexPage]

/-! ## Sample objects used by witnesses and counterexamples -/

/-- A unit square with bottom-left corner at the origin. -/
def sampleRect : Rectangle :=
  ⟨0, 0, 1, 1, .default, .default, .default, .default, .default⟩

/-- The unit circle centred at the origin. -/
def sampleCircle : Circle :=
  ⟨0, 0, 1, .default, .default, .default, .default, .default⟩

/-- A freshly constructed arrow (its `_style` attribute does not exist). -/
def sampleArrow : Arrow :=
  Arrow.make (0, 0) (1, 1) .default .default .default 0 false

/-! ## Helper lemmas -/

/-- Any value is at least the minimum with another value minus nothing:
`a ≤ min a b + |a - b|`. -/
theorem le_min_add_abs (a b : ℚ) : a ≤ min a b + |a - b| := by
  rcases le_total a b with h | h
  · rw [min_eq_left h, abs_of_nonpos (by linarith)]; linarith
  · rw [min_eq_right h, abs_of_nonneg (by linarith)]; linarith

/-! ## Theorems for the claims -/

/-- C1: construction enforces exactly the geometric validity invariants:
`Circle` raises a `ValueError` exactly when `radius ≤ 0`; `Rectangle`
exactly when `width ≤ 0` or `height ≤ 0`; `Rectangle.from_points` exactly
when the corners share an x or a y coordinate; in every other case
construction succeeds and the object holds the given fields. -/
theorem construction_validation (x y r x0 y0 w h : ℚ) (p1 p2 : Point)
    (f : StyleParam Bool) (col : StyleParam String) (lw : StyleParam ℚ)
    (ls : StyleParam String) (fa : StyleParam ℚ) :
    ((∃ e, Circle.make x y r f col lw ls fa = .error e) ↔ r ≤ 0)
    ∧ (0 < r →
        Circle.make x y r f col lw ls fa = .ok ⟨x, y, r, f, col, lw, ls, fa⟩)
    ∧ ((∃ e, Rectangle.make x0 y0 w h f col lw ls fa = .error e) ↔
        w ≤ 0 ∨ h ≤ 0)
    ∧ (0 < w → 0 < h →
        Rectangle.make x0 y0 w h f col lw ls fa =
          .ok ⟨x0, y0, w, h, f, col, lw, ls, fa⟩)
    ∧ ((∃ e, Rectangle.from_points p1 p2 f col lw ls fa = .error e) ↔
        p1.x = p2.x ∨ p1.y = p2.y)
    ∧ (p1.x ≠ p2.x → p1.y ≠ p2.y →
        Rectangle.from_points p1 p2 f col lw ls fa =
          .ok ⟨min p1.x p2.x, min p1.y p2.y, |p1.x - p2.x|, |p1.y - p2.y|,
            f, col, lw, ls, fa⟩) := by
  refine ⟨?_, ?_, ?_, ?_, ?_, ?_⟩
  · by_cases hr : r ≤ 0 <;> simp [Circle.make, hr]
  · intro hr; simp [Circle.make, not_le.mpr hr]
  · by_cases hw : w ≤ 0 <;> by_cases hh : h ≤ 0 <;> simp [Rectangle.make, hw, hh]
  · intro hw hh; simp [Rectangle.make, not_le.mpr hw, not_le.mpr hh]
  · by_cases hx : p1.x = p2.x
    · simp [Rectangle.from_points, hx]
    · by_cases hy : p1.y = p2.y
      · simp [Rectangle.from_points, hx, hy]
      · have h1 : ¬(|p1.x - p2.x| ≤ 0) :=
          not_le.mpr (abs_pos.mpr (sub_ne_zero.mpr hx))
        have h2 : ¬(|p1.y - p2.y| ≤ 0) :=
          not_le.mpr (abs_pos.mpr (sub_ne_zero.mpr hy))
        simp [Rectangle.from_points, Rectangle.make, hx, hy, h1, h2]
  · intro hx hy
    have h1 : ¬(|p1.x - p2.x| ≤ 0) :=
      not_le.mpr (abs_pos.mpr (sub_ne_zero.mpr hx))
    have h2 : ¬(|p1.y - p2.y| ≤ 0) :=
      not_le.mpr (abs_pos.mpr (sub_ne_zero.mpr hy))
    simp [Rectangle.from_points, Rectangle.make, hx, hy, h1, h2]

/-- C1 witness: construction at concrete valid arguments succeeds with the
given fields. -/
theorem construction_validation_witness :
    Circle.make 1 2 3 .default .default .default .default .default =
      .ok ⟨1, 2, 3, .default, .default, .default, .default, .default⟩ ∧
    Rectangle.from_points ⟨0, 0⟩ ⟨2, 3⟩ .default .default .default .default .default =
      .ok ⟨0, 0, 2, 3, .default, .default, .default, .default, .default⟩ := by
  have h := construction_validation 1 2 3 0 0 2 3 ⟨0, 0⟩ ⟨2, 3⟩
    .default .default .default .default .default
  refine ⟨h.2.1 (by norm_num), ?_⟩
  have h2 := h.2.2.2.2.2 (by norm_num) (by norm_num)
  norm_num at h2
  exact h2

/-- C2: evaluating the code at a concrete input shows that the pairs
returned by `get_coordinates_at_x` and `get_coordinates_at_y` do not lie
on the circle when the centre is off the corresponding axis: the code
omits the `y_center` (resp. `x_center`) offset after the square root.
For the circle with centre `(0, 5)` and radius `1`, `get_coordinates_at_x 0`
returns `(0, 1)` and `(0, -1)`, and `(0 - 0)^2 + (1 - 5)^2 = 16 ≠ 1 = r^2`;
symmetrically for `get_coordinates_at_y` on the circle with centre
`(5, 0)`. -/
theorem circle_coordinates_off_center :
    Circle.get_coordinates_at_x ⟨0, 5, 1, .default, .default, .default, .default, .default⟩ 0 =
      .ok [((0 : ℝ), 1), ((0 : ℝ), -1)]
    ∧ ¬(((0 : ℝ) - 0) ^ 2 + ((1 : ℝ) - 5) ^ 2 = 1 ^ 2)
    ∧ Circle.get_coordinates_at_y ⟨5, 0, 1, .default, .default, .default, .default, .default⟩ 0 =
      .ok [((1 : ℝ), 0), ((-1 : ℝ), 0)]
    ∧ ¬(((1 : ℝ) - 5) ^ 2 + ((0 : ℝ) - 0) ^ 2 = 1 ^ 2) := by
  refine ⟨?_, by norm_num, ?_, by norm_num⟩
  · rw [Circle.get_coordinates_at_x, if_neg (by norm_num)]
    norm_num [Real.sqrt_one]
  · rw [Circle.get_coordinates_at_y, if_neg (by norm_num)]
    norm_num [Real.sqrt_one]

/-- C3 (amended): `Circle.get_coordinates_at_x` raises exactly when `x`
is outside the closed horizontal extent and returns normally on all of
it; `Rectangle.get_coordinates_at_x` raises exactly when `x` is outside
the open horizontal extent — the endpoints `x_bottom_left` and
`x_bottom_left + width` also raise — and returns normally strictly
inside. -/
theorem coordinate_query_range (c : Circle) (rec : Rectangle) (x : ℚ) :
    ((∃ e, c.get_coordinates_at_x x = .error e) ↔
      ¬(c.x_center - c.radius ≤ x ∧ x ≤ c.x_center + c.radius))
    ∧ ((c.x_center - c.radius ≤ x ∧ x ≤ c.x_center + c.radius) →
        ∃ l, c.get_coordinates_at_x x = .ok l)
    ∧ ((∃ e, rec.get_coordinates_at_x x = .error e) ↔
        (x ≤ rec.x_bottom_left ∨ rec.x_bottom_left + rec.width ≤ x))
    ∧ ((rec.x_bottom_left < x ∧ x < rec.x_bottom_left + rec.width) →
        rec.get_coordinates_at_x x =
          .ok [(x, rec.y_bottom_left), (x, rec.y_bottom_left + rec.height)]) := by
  have hiff : (x < c.x_center - c.radius ∨ x > c.x_center + c.radius) ↔
      ¬(c.x_center - c.radius ≤ x ∧ x ≤ c.x_center + c.radius) := by
    rw [not_and_or, not_le, not_le]
  refine ⟨?_, ?_, ?_, ?_⟩
  · by_cases hc : x < c.x_center - c.radius ∨ x > c.x_center + c.radius
    · rw [Circle.get_coordinates_at_x, if_pos hc]
      simpa using hiff.mp hc
    · rw [Circle.get_coordinates_at_x, if_neg hc]
      push_neg at hc
      split_ifs <;> simp <;> constructor <;> linarith [hc.1, hc.2]
  · intro h
    have hc : ¬(x < c.x_center - c.radius ∨ x > c.x_center + c.radius) :=
      fun hc => (hiff.mp hc) h
    rw [Circle.get_coordinates_at_x, if_neg hc]
    split_ifs <;> exact ⟨_, rfl⟩
  · by_cases hr : x ≤ rec.x_bottom_left ∨ x ≥ rec.x_bottom_left + rec.width <;>
      simp [Rectangle.get_coordinates_at_x, hr]
  · rintro ⟨h1, h2⟩
    rw [Rectangle.get_coordinates_at_x, if_neg (by push_neg; exact ⟨h1, h2⟩)]

/-- C3 witness: inside the respective extents both queries return
normally. -/
theorem coordinate_query_range_witness :
    (∃ l, sampleCircle.get_coordinates_at_x (1 / 2) = .ok l) ∧
    sampleRect.get_coordinates_at_x (1 / 2) =
      .ok [(1 / 2, sampleRect.y_bottom_left),
        (1 / 2, sampleRect.y_bottom_left + sampleRect.height)] := by
  have h := coordinate_query_range sampleCircle sampleRect (1 / 2)
  exact ⟨h.2.1 (by norm_num [sampleCircle]), h.2.2.2 (by norm_num [sampleRect])⟩

/-- C3 counterexample: `x = 0` lies in the closed horizontal extent
`[0, 0 + 1]` of the unit square, yet `get_coordinates_at_x` raises. -/
theorem coordinate_query_range_counterexample :
    (sampleRect.x_bottom_left ≤ (0 : ℚ) ∧
      (0 : ℚ) ≤ sampleRect.x_bottom_left + sampleRect.width) ∧
    ∃ e, sampleRect.get_coordinates_at_x 0 = .error e := by
  refine ⟨by norm_num [sampleRect], ?_⟩
  rw [Rectangle.get_coordinates_at_x, if_pos (by norm_num [sampleRect])]
  exact ⟨_, rfl⟩

/-- C4: `from_points` on corners with distinct x and y coordinates
returns the rectangle with width `|Δx|`, height `|Δy|` and bottom-left
corner `(min x, min y)`. -/
theorem from_points_dimensions (p1 p2 : Point) (f : StyleParam Bool)
    (col : StyleParam String) (lw : StyleParam ℚ) (ls : StyleParam String)
    (fa : StyleParam ℚ) (h1 : p1.x ≠ p2.x) (h2 : p1.y ≠ p2.y) :
    ∃ rec, Rectangle.from_points p1 p2 f col lw ls fa = .ok rec ∧
      rec.width = |p1.x - p2.x| ∧ rec.height = |p1.y - p2.y| ∧
      rec.x_bottom_left = min p1.x p2.x ∧ rec.y_bottom_left = min p1.y p2.y := by
  have hw : ¬(|p1.x - p2.x| ≤ 0) := not_le.mpr (abs_pos.mpr (sub_ne_zero.mpr h1))
  have hh : ¬(|p1.y - p2.y| ≤ 0) := not_le.mpr (abs_pos.mpr (sub_ne_zero.mpr h2))
  exact ⟨⟨min p1.x p2.x, min p1.y p2.y, |p1.x - p2.x|, |p1.y - p2.y|,
      f, col, lw, ls, fa⟩,
    by simp [Rectangle.from_points, Rectangle.make, h1, h2, hw, hh],
    rfl, rfl, rfl, rfl⟩

/-- C4 witness: concrete corners `(0,0)` and `(2,3)`. -/
theorem from_points_dimensions_witness :
    ∃ rec, Rectangle.from_points ⟨0, 0⟩ ⟨2, 3⟩
        .default .default .default .default .default = .ok rec ∧
      rec.width = |(0 : ℚ) - 2| ∧ rec.height = |(0 : ℚ) - 3| ∧
      rec.x_bottom_left = min (0 : ℚ) 2 ∧ rec.y_bottom_left = min (0 : ℚ) 3 :=
  from_points_dimensions ⟨0, 0⟩ ⟨2, 3⟩ .default .default .default .default .default
    (by norm_num) (by norm_num)

/-- C5: for a circle with positive radius, `get_area` is exactly
`pi * r^2` and `get_circumference` exactly `2 * pi * r`. -/
theorem circle_area_circumference (c : Circle) (_h : 0 < c.radius) :
    c.get_area = Real.pi * (c.radius : ℝ) ^ 2 ∧
    c.get_circumference = 2 * Real.pi * (c.radius : ℝ) :=
  ⟨rfl, rfl⟩

/-- C5 witness: the unit circle. -/
theorem circle_area_circumference_witness :
    sampleCircle.get_area = Real.pi * ((1 : ℚ) : ℝ) ^ 2 ∧
    sampleCircle.get_circumference = 2 * Real.pi * ((1 : ℚ) : ℝ) :=
  circle_area_circumference sampleCircle (by norm_num [sampleCircle])

/-- C9: rectangle membership is boundary-inclusive: `p ∈ rect` iff both
coordinates lie in the respective closed ranges; all four corners of a
valid rectangle are contained; and both points given to `from_points`
are contained in the rectangle it returns. -/
theorem rectangle_contains_spec (rec : Rectangle) (p p1 p2 : Point)
    (f : StyleParam Bool) (col : StyleParam String) (lw : StyleParam ℚ)
    (ls : StyleParam String) (fa : StyleParam ℚ) :
    (rec.contains p = true ↔
      (rec.x_bottom_left ≤ p.x ∧ p.x ≤ rec.x_bottom_left + rec.width ∧
        rec.y_bottom_left ≤ p.y ∧ p.y ≤ rec.y_bottom_left + rec.height))
    ∧ (0 < rec.width → 0 < rec.height →
        rec.contains ⟨rec.x_bottom_left, rec.y_bottom_left⟩ = true ∧
        rec.contains ⟨rec.x_bottom_left + rec.width, rec.y_bottom_left⟩ = true ∧
        rec.contains ⟨rec.x_bottom_left, rec.y_bottom_left + rec.height⟩ = true ∧
        rec.contains ⟨rec.x_bottom_left + rec.width,
          rec.y_bottom_left + rec.height⟩ = true)
    ∧ (∀ rec', Rectangle.from_points p1 p2 f col lw ls fa = .ok rec' →
        rec'.contains p1 = true ∧ rec'.contains p2 = true) := by
  have hmem : ∀ q : Point, rec.contains q = true ↔
      (rec.x_bottom_left ≤ q.x ∧ q.x ≤ rec.x_bottom_left + rec.width ∧
        rec.y_bottom_left ≤ q.y ∧ q.y ≤ rec.y_bottom_left + rec.height) := by
    intro q
    simp [Rectangle.contains, and_assoc]
  refine ⟨hmem p, ?_, ?_⟩
  · intro hw hh
    refine ⟨(hmem _).mpr ?_, (hmem _).mpr ?_, (hmem _).mpr ?_, (hmem _).mpr ?_⟩ <;>
      refine ⟨?_, ?_, ?_, ?_⟩ <;> dsimp only <;> linarith
  · intro rec' hok
    by_cases hx : p1.x = p2.x
    · simp [Rectangle.from_points, hx] at hok
    · by_cases hy : p1.y = p2.y
      · simp [Rectangle.from_points, hx, hy] at hok
      · have hw : ¬(|p1.x - p2.x| ≤ 0) :=
          not_le.mpr (abs_pos.mpr (sub_ne_zero.mpr hx))
        have hh : ¬(|p1.y - p2.y| ≤ 0) :=
          not_le.mpr (abs_pos.mpr (sub_ne_zero.mpr hy))
        simp [Rectangle.from_points, Rectangle.make, hx, hy, hw, hh] at hok
        subst hok
        refine ⟨?_, ?_⟩ <;>
          simp only [Rectangle.contains, Bool.and_eq_true, decide_eq_true_eq]
        · exact ⟨⟨min_le_left _ _, le_min_add_abs p1.x p2.x⟩,
            min_le_left _ _, le_min_add_abs p1.y p2.y⟩
        · refine ⟨⟨min_le_right _ _, ?_⟩, min_le_right _ _, ?_⟩
          · rw [min_comm, abs_sub_comm]; exact le_min_add_abs p2.x p1.x
          · rw [min_comm, abs_sub_comm]; exact le_min_add_abs p2.y p1.y

/-- C9 witness: the rectangle built from `(0,0)` and `(2,3)` contains
both defining points. -/
theorem rectangle_contains_spec_witness :
    (⟨0, 0, 2, 3, .default, .default, .default, .default, .default⟩ :
        Rectangle).contains ⟨0, 0⟩ = true ∧
    (⟨0, 0, 2, 3, .default, .default, .default, .default, .default⟩ :
        Rectangle).contains ⟨2, 3⟩ = true :=
  (rectangle_contains_spec
      ⟨0, 0, 2, 3, .default, .default, .default, .default, .default⟩
      ⟨0, 0⟩ ⟨0, 0⟩ ⟨2, 3⟩ .default .default .default .default .default).2.2
    ⟨0, 0, 2, 3, .default, .default, .default, .default, .default⟩
    (by norm_num [Rectangle.from_points, Rectangle.make])

/-- C10: `from_center` with positive dimensions succeeds, and the centre
queries return exactly the given centre. -/
theorem from_center_roundtrip (x y w h : ℚ) (f : StyleParam Bool)
    (col : StyleParam String) (lw : StyleParam ℚ) (ls : StyleParam String)
    (fa : StyleParam ℚ) (hw : 0 < w) (hh : 0 < h) :
    ∃ rec, Rectangle.from_center x y w h f col lw ls fa = .ok rec ∧
      rec.get_center_coordinates = (x, y) ∧
      rec.create_center_point = ⟨x, y⟩ := by
  refine ⟨⟨x - w / 2, y - h / 2, w, h, f, col, lw, ls, fa⟩, ?_, ?_, ?_⟩
  · simp [Rectangle.from_center, Rectangle.make, not_le.mpr hw, not_le.mpr hh]
  · simp only [Rectangle.get_center_coordinates, Prod.mk.injEq]
    constructor <;> ring
  · simp only [Rectangle.create_center_point, Point.mk.injEq]
    constructor <;> ring

/-- C10 witness: centre `(5, 7)`, width 2, height 4. -/
theorem from_center_roundtrip_witness :
    ∃ rec, Rectangle.from_center 5 7 2 4
        .default .default .default .default .default = .ok rec ∧
      rec.get_center_coordinates = (5, 7) ∧
      rec.create_center_point = ⟨5, 7⟩ :=
  from_center_roundtrip 5 7 2 4 .default .default .default .default .default
    (by norm_num) (by norm_num)

/-- C7 (amended): rendering leaves `Circle`, `Rectangle`, `Line` and
`Polygon` objects exactly as they were; `Arrow._plot_element` is the one
exception: it assigns the `_style` attribute (leaving every dataclass
field unchanged). -/
theorem plot_element_state (c : Circle) (rec : Rectangle) (l : Line)
    (p : Polygon) (a : Arrow) (axes : List PlotCmd) (z : ℤ) :
    (c.plot_element axes z).1 = c ∧
    (rec.plot_element axes z).1 = rec ∧
    (l.plot_element axes z).1 = l ∧
    (p.plot_element axes z).1 = p ∧
    (a.plot_element axes z).1 =
      { a with style_attr := some (if a.two_sided then "<|-|>" else "-|>") } :=
  ⟨rfl, rfl, rfl, rfl, rfl⟩

/-- C7 counterexample: plotting a freshly constructed arrow does not
leave it as it was — the call adds the `_style` attribute. -/
theorem plot_element_mutates_arrow :
    (sampleArrow.plot_element [] 1).1 ≠ sampleArrow := by
  simp [Arrow.plot_element, sampleArrow, Arrow.make]

/-- C8 (amended): for every example script found in the source directory,
the build emits its RST reference page and a copy of the script
unconditionally; the script is executed — and its PNG image and
thumbnail emitted — exactly when the target RST page does not exist or
is older than the script; otherwise the script is skipped and its loop
iteration produces neither a PNG nor a thumbnail, and no PNG or
thumbnail for its module is in the build output at all unless some
script of that module name is executed. -/
theorem gallery_artifacts (fs : List (String × ℕ)) (target : String)
    (scripts : List ExampleScript) (s : ExampleScript) (hs : s ∈ scripts) :
    Artifact.rstPage s.module_name ∈ galleryMain fs target scripts
    ∧ Artifact.scriptCopy s.module_name ∈ galleryMain fs target scripts
    ∧ (shouldRunExample fs target s = true →
        Artifact.pngImage s.module_name ∈ galleryMain fs target scripts ∧
        Artifact.thumbnail s.module_name ∈ galleryMain fs target scripts)
    ∧ (shouldRunExample fs target s = false →
        Artifact.pngImage s.module_name ∉ processExample fs target s ∧
        Artifact.thumbnail s.module_name ∉ processExample fs target s)
    ∧ (Artifact.pngImage s.module_name ∈ galleryMain fs target scripts ↔
        ∃ s' ∈ scripts, s'.module_name = s.module_name ∧
          shouldRunExample fs target s' = true)
    ∧ (Artifact.thumbnail s.module_name ∈ galleryMain fs target scripts ↔
        ∃ s' ∈ scripts, s'.module_name = s.module_name ∧
          shouldRunExample fs target s' = true)
    ∧ (fs.lookup (rstPath target s.module_name) = none →
        shouldRunExample fs target s = true)
    ∧ (∀ m, fs.lookup (rstPath target s.module_name) = some m →
        (shouldRunExample fs target s = true ↔ m < s.mtime)) := by
  have hsub : ∀ a, a ∈ processExample fs target s → a ∈ galleryMain fs target scripts := by
    intro a ha
    unfold galleryMain
    exact List.mem_append_left _
      (List.mem_flatten.mpr ⟨processExample fs target s, List.mem_map_of_mem _ hs, ha⟩)
  have hpng : ∀ s' : ExampleScript,
      Artifact.pngImage s.module_name ∈ processExample fs target s' ↔
        (s'.module_name = s.module_name ∧ shouldRunExample fs target s' = true) := by
    intro s'
    by_cases h : shouldRunExample fs target s' <;> simp [processExample, h, eq_comm]
  have hthumb : ∀ s' : ExampleScript,
      Artifact.thumbnail s.module_name ∈ processExample fs target s' ↔
        (s'.module_name = s.module_name ∧ shouldRunExample fs target s' = true) := by
    intro s'
    by_cases h : shouldRunExample fs target s' <;> simp [processExample, h, eq_comm]
  refine ⟨?_, ?_, ?_, ?_, ?_, ?_, ?_, ?_⟩
  · exact hsub _ (by simp [processExample])
  · exact hsub _ (by simp [processExample])
  · intro hrun
    exact ⟨hsub _ (by simp [processExample, hrun]),
      hsub _ (by simp [processExample, hrun])⟩
  · intro hskip
    constructor
    · intro hmem
      exact absurd ((hpng s).mp hmem).2 (by simp [hskip])
    · intro hmem
      exact absurd ((hthumb s).mp hmem).2 (by simp [hskip])
  · unfold galleryMain
    simp only [List.mem_append, List.mem_flatten, List.mem_map, List.mem_singleton]
    constructor
    · rintro (⟨_, ⟨s', hs', rfl⟩, hmem⟩ | h)
      · exact ⟨s', hs', (hpng s').mp hmem⟩
      · cases h
    · rintro ⟨s', hs', hcond⟩
      exact Or.inl ⟨_, ⟨s', hs', rfl⟩, (hpng s').mpr hcond⟩
  · unfold galleryMain
    simp only [List.mem_append, List.mem_flatten, List.mem_map, List.mem_singleton]
    constructor
    · rintro (⟨_, ⟨s', hs', rfl⟩, hmem⟩ | h)
      · exact ⟨s', hs', (hthumb s').mp hmem⟩
      · cases h
    · rintro ⟨s', hs', hcond⟩
      exact Or.inl ⟨_, ⟨s', hs', rfl⟩, (hthumb s').mpr hcond⟩
  · intro hnone
    simp [shouldRunExample, hnone]
  · intro m hm
    simp [shouldRunExample, hm]

/-- C8 witness: a fresh build (no pre-existing files) emits the page and
copy for a concrete script. -/
theorem gallery_artifacts_witness :
    Artifact.rstPage "a" ∈ galleryMain [] "t" [⟨"a", 5⟩] ∧
    Artifact.scriptCopy "a" ∈ galleryMain [] "t" [⟨"a", 5⟩] :=
  ⟨(gallery_artifacts [] "t" [⟨"a", 5⟩] ⟨"a", 5⟩ (by simp)).1,
   (gallery_artifacts [] "t" [⟨"a", 5⟩] ⟨"a", 5⟩ (by simp)).2.1⟩

/-- C8 counterexample: a script whose RST page already exists with a
newer modification time is not executed and yields neither a PNG image
nor a thumbnail, though its RST page (and copy) are still written. -/
theorem gallery_artifacts_counterexample :
    shouldRunExample [("t/a.rst", 10)] "t" ⟨"a", 5⟩ = false ∧
    Artifact.pngImage "a" ∉ galleryMain [("t/a.rst", 10)] "t" [⟨"a", 5⟩] ∧
    Artifact.thumbnail "a" ∉ galleryMain [("t/a.rst", 10)] "t" [⟨"a", 5⟩] ∧
    Artifact.rstPage "a" ∈ galleryMain [("t/a.rst", 10)] "t" [⟨"a", 5⟩] := by
  decide

/-! ## Least-squares algebra for C6 -/

/-- Expanding a sum of shifted squares. -/
theorem sum_map_sq_shift (x : ℚ) (l : List ℚ) :
    (l.map fun y => (x - y) ^ 2).sum =
      (l.length : ℚ) * x ^ 2 - 2 * x * l.sum + (l.map fun y => y ^ 2).sum := by
  induction l with
  | nil => simp
  | cons y t ih =>
    simp only [List.map_cons, List.sum_cons, List.length_cons, ih]
    push_cast
    ring

/-- A sum of squares is nonnegative. -/
theorem sum_map_sq_shift_nonneg (x : ℚ) (l : List ℚ) :
    0 ≤ (l.map fun y => (x - y) ^ 2).sum := by
  induction l with
  | nil => simp
  | cons y t ih =>
    simp only [List.map_cons, List.sum_cons]
    exact add_nonneg (sq_nonneg _) ih

/-- A sum of squares with one nonzero term is positive. -/
theorem sum_map_sq_shift_pos (x b : ℚ) (l : List ℚ) (hb : b ∈ l) (hxb : x ≠ b) :
    0 < (l.map fun y => (x - y) ^ 2).sum := by
  induction l with
  | nil => cases hb
  | cons y t ih =>
    simp only [List.map_cons, List.sum_cons]
    rcases List.mem_cons.mp hb with h | h
    · subst h
      exact add_pos_of_pos_of_nonneg
        (sq_pos_of_ne_zero (sub_ne_zero.mpr hxb)) (sum_map_sq_shift_nonneg x t)
    · exact add_pos_of_nonneg_of_pos (sq_nonneg _) (ih h)

/-- The (scaled) variance numerator `n·Σx² - (Σx)²` of a list of
abscissas: the determinant of the degree-1 normal equations. -/
def Dq (l : List ℚ) : ℚ :=
  (l.length : ℚ) * (l.map fun y => y ^ 2).sum - l.sum ^ 2

theorem Dq_cons (x : ℚ) (t : List ℚ) :
    Dq (x :: t) = Dq t + (t.map fun y => (x - y) ^ 2).sum := by
  simp only [Dq, List.length_cons, List.map_cons, List.sum_cons, sum_map_sq_shift]
  push_cast
  ring

theorem Dq_nonneg (l : List ℚ) : 0 ≤ Dq l := by
  induction l with
  | nil => simp [Dq]
  | cons x t ih =>
    rw [Dq_cons]
    exact add_nonneg ih (sum_map_sq_shift_nonneg x t)

/-- With two distinct abscissas the normal-equation determinant is
positive (Cauchy–Schwarz with equality only for constant lists). -/
theorem Dq_pos (l : List ℚ) (u v : ℚ) (hu : u ∈ l) (hv : v ∈ l)
    (huv : u ≠ v) : 0 < Dq l := by
  induction l with
  | nil => cases hu
  | cons x t ih =>
    rw [Dq_cons]
    rcases List.mem_cons.mp hu with hu1 | hu1
    · rcases List.mem_cons.mp hv with hv1 | hv1
      · exact absurd (hu1.trans hv1.symm) huv
      · subst hu1
        exact add_pos_of_nonneg_of_pos (Dq_nonneg t)
          (sum_map_sq_shift_pos u v t hv1 huv)
    · rcases List.mem_cons.mp hv with hv1 | hv1
      · subst hv1
        exact add_pos_of_nonneg_of_pos (Dq_nonneg t)
          (sum_map_sq_shift_pos v u t hu1 (Ne.symm huv))
      · exact add_pos_of_pos_of_nonneg (ih hu1 hv1) (sum_map_sq_shift_nonneg x t)

theorem zip_map_mul (f : ℚ → ℚ) (l : List ℚ) :
    ((l.zip (l.map f)).map fun p => p.1 * p.2) = l.map fun t => t * f t := by
  induction l with
  | nil => rfl
  | cons x t ih => simp [ih]

theorem sum_map_affine (a b : ℚ) (l : List ℚ) :
    (l.map fun t => a * t + b).sum = a * l.sum + b * (l.length : ℚ) := by
  induction l with
  | nil => simp
  | cons x t ih =>
    simp only [List.map_cons, List.sum_cons, List.length_cons, ih]
    push_cast
    ring

theorem sum_map_mul_affine (a b : ℚ) (l : List ℚ) :
    (l.map fun t => t * (a * t + b)).sum =
      a * (l.map fun t => t ^ 2).sum + b * l.sum := by
  induction l with
  | nil => simp
  | cons x t ih =>
    simp only [List.map_cons, List.sum_cons, ih]
    ring

/-- The degree-1 normal-equation solution on exact linear data. -/
theorem polyfit1_exact (a b : ℚ) (x : List ℚ) (u v : ℚ) (hu : u ∈ x)
    (hv : v ∈ x) (huv : u ≠ v) :
    polyfit1 x (x.map fun t => a * t + b) = (b, a) := by
  have hD : (x.length : ℚ) * (x.map fun t => t ^ 2).sum - x.sum ^ 2 ≠ 0 := by
    have := Dq_pos x u v hu hv huv
    rw [Dq] at this
    exact ne_of_gt this
  have hn : (x.length : ℚ) ≠ 0 := by
    have hx : x ≠ [] := by rintro rfl; cases hu
    exact_mod_cast fun h => hx (List.length_eq_zero.mp h)
  have hnum : (x.length : ℚ) * (a * (x.map fun t => t ^ 2).sum + b * x.sum) -
      x.sum * (a * x.sum + b * (x.length : ℚ)) =
      a * ((x.length : ℚ) * (x.map fun t => t ^ 2).sum - x.sum ^ 2) := by
    ring
  simp only [polyfit1, zip_map_mul, sum_map_affine, sum_map_mul_affine,
    Prod.mk.injEq]
  rw [hnum, mul_div_assoc, div_self hD, mul_one]
  refine ⟨?_, rfl⟩
  field_simp

/-- C6 (spec-modelled): fitting a first-degree polynomial to noiseless
linear data `y = a·x + b` with at least two distinct abscissas recovers
the exact coefficients `[b, a]` and an evaluation function equal to
`a·x + b` everywhere. -/
theorem first_degree_fit_exact (a b : ℚ) (s : Scatter)
    (hlin : s.y_data = s.x_data.map fun t => a * t + b)
    (hdist : ∃ u ∈ s.x_data, ∃ v ∈ s.x_data, u ≠ v) :
    (FitFromPolynomial.degree1 s).coeffs = [b, a] ∧
    ∀ t, (FitFromPolynomial.degree1 s).function t = a * t + b := by
  obtain ⟨u, hu, v, hv, huv⟩ := hdist
  have hfit : polyfit1 s.x_data s.y_data = (b, a) := by
    rw [hlin]
    exact polyfit1_exact a b s.x_data u v hu hv huv
  constructor
  · simp [FitFromPolynomial.degree1, hfit]
  · intro t
    simp [FitFromPolynomial.degree1, hfit]
    ring

/-- C6 witness: the two points `(0, 2)` and `(1, 5)` lie on `y = 3x + 2`
and the fit recovers `coeffs = [2, 3]` and `function 5 = 17`. -/
theorem first_degree_fit_exact_witness :
    (FitFromPolynomial.degree1 ⟨[0, 1], [2, 5]⟩).coeffs = [2, 3] ∧
    (FitFromPolynomial.degree1 ⟨[0, 1], [2, 5]⟩).function 5 = 17 := by
  have h := first_degree_fit_exact 3 2 ⟨[0, 1], [2, 5]⟩ (by norm_num)
    ⟨0, by simp, 1, by simp, by norm_num⟩
  refine ⟨h.1, ?_⟩
  rw [h.2 5]
  norm_num

end GraphingLib
